import Mathlib

/-!
Verification of the webhook payload builder / validator subsystem
(`src/task_4/implementation-examples.py`).

Python values that can appear in a webhook envelope are embedded as the
inductive type `JValue`; Python dicts (string-keyed, insertion-ordered,
unique keys) are association lists `Dict`.  Effectful inputs of the
source (current time, uuid randomness) are passed as explicit
parameters.  Fallible Python code (statements that can raise) is
embedded in `Except String`, the error string naming the Python
exception class raised.
-/

set_option maxRecDepth 4096

namespace Webhook

/-- Embedding of the Python/JSON values that flow through the webhook
code.  Python `int` and `float` are kept apart (they serialize and
convert differently); `float` is modelled as an exact rational, which
coincides with CPython on every decimally-representable value used
here.  Dicts are insertion-ordered association lists. -/
inductive JValue where
  | jnull : JValue
  | jbool : Bool → JValue
  | jint : Int → JValue
  | jfloat : ℚ → JValue
  | jstr : String → JValue
  | jarr : List JValue → JValue
  | jobj : List (String × JValue) → JValue

/-- A Python dict with string keys: insertion-ordered association list.
All dicts built by the webhook code have pairwise-distinct keys. -/
abbrev Dict := List (String × JValue)

/-- `k in d` for a Python dict. -/
def dcontains (d : Dict) (k : String) : Bool :=
  d.any (fun p => p.1 == k)

/-- `d.get(k)` / `d[k]` lookup (first, hence unique, binding of `k`). -/
def dlookup (d : Dict) (k : String) : Option JValue :=
  (d.find? (fun p => p.1 == k)).map (fun p => p.2)

/-- `d[k] = v`: update in place if `k` is present, else append
(CPython insertion-order semantics). -/
def dinsert (d : Dict) (k : String) (v : JValue) : Dict :=
  if dcontains d k then
    d.map (fun p => if p.1 == k then (k, v) else p)
  else
    d ++ [(k, v)]

/-- `d.pop(k, None)`: remove the binding of `k` (a no-op when absent). -/
def dremove (d : Dict) (k : String) : Dict :=
  d.filter (fun p => p.1 != k)

/-- Python truthiness of an embedded value (`if request_id:`). -/
def pyTruthy : JValue → Bool
  | .jnull => false
  | .jbool b => b
  | .jint n => n != 0
  | .jfloat q => q != 0
  | .jstr s => s != ""
  | .jarr xs => !xs.isEmpty
  | .jobj fs => !fs.isEmpty

/-- Equality used by Python set membership for the hashable scalar
values that can reach the replay set (its list or dict inputs raise
TypeError before membership is tested, see `replayCheck`).  Numeric
cross-type equality (`1 == 1.0 == True`) is included. -/
def pyHashableEq : JValue → JValue → Bool
  | .jnull, .jnull => true
  | .jbool a, .jbool b => a == b
  | .jbool a, .jint n => (if a then (1 : Int) else 0) == n
  | .jbool a, .jfloat q => ((if a then (1 : Int) else 0) : ℚ) == q
  | .jint n, .jbool b => n == (if b then (1 : Int) else 0)
  | .jint a, .jint b => a == b
  | .jint a, .jfloat q => ((a : ℚ)) == q
  | .jfloat q, .jbool b => q == ((if b then (1 : Int) else 0) : ℚ)
  | .jfloat q, .jint n => q == ((n : ℚ))
  | .jfloat a, .jfloat b => a == b
  | .jstr a, .jstr b => a == b
  | _, _ => false

/-- Membership of a value in the replay set (Python `x in set`). -/
def setMem (s : List JValue) (v : JValue) : Bool :=
  s.any (fun w => pyHashableEq v w)

/-- Python `s == elem` as used by `"k" in some_list`: a str compares
equal only to an equal str (comparison with a container is False
without recursing). -/
def pyEqStr (s : String) : JValue → Bool
  | .jstr t => s == t
  | _ => false

/-- Round `n / d` (for `d > 0`) to the nearest integer, ties to even —
the rounding Python `round` uses. -/
def roundHalfEvenFrac (n d : Int) : Int :=
  let f := Int.fdiv n d
  let rem2 := 2 * (n - f * d)
  if rem2 < d then f
  else if d < rem2 then f + 1
  else if f % 2 = 0 then f else f + 1

/-- `round(q, 2)` on a float modelled as an exact rational. -/
def pyRound2 (q : ℚ) : ℚ :=
  mkRat (roundHalfEvenFrac (q.num * 100) (q.den : Int)) 100

/-- `round(v, 2)` on an arbitrary value. -/
def pyRoundJ2 : JValue → Except String JValue
  | .jint n => .ok (.jint n)
  | .jfloat q => .ok (.jfloat (pyRound2 q))
  | .jbool b => .ok (.jint (if b then 1 else 0))
  | _ => .error "TypeError"

/-- `v >= c` against a float constant `c`; non-numeric values raise
TypeError. -/
def pyGeFloat : JValue → ℚ → Except String Bool
  | .jint n, c => .ok (!Rat.blt (mkRat n 1) c)
  | .jfloat q, c => .ok (!Rat.blt q c)
  | .jbool b, c => .ok (!Rat.blt (mkRat (if b then 1 else 0) 1) c)
  | _, _ => .error "TypeError"

/-- Digits of a decimal numeral. -/
def parseDigits : List Char → Option Nat
  | [] => none
  | cs => cs.foldl (fun acc c =>
      match acc with
      | none => none
      | some n => if c.isDigit then some (n * 10 + (c.toNat - 48)) else none)
      (some 0)

/-- Model of Python `int(str)` restricted to an optional sign followed
by decimal digits (the only shapes exercised here; CPython additionally
strips whitespace and allows underscores). -/
def parsePyIntString (s : String) : Option Int :=
  match s.toList with
  | '-' :: cs => (parseDigits cs).map (fun n => -(n : Int))
  | '+' :: cs => (parseDigits cs).map (fun n => (n : Int))
  | cs => (parseDigits cs).map (fun n => (n : Int))

/-- Python `int(v)`: truncation toward zero for floats, identity for
ints, 0/1 for bools, strict decimal parse for strs (ValueError when the
parse fails), TypeError otherwise. -/
def pyToInt : JValue → Except String Int
  | .jint n => .ok n
  | .jfloat q => .ok (Int.tdiv q.num (q.den : Int))
  | .jbool b => .ok (if b then 1 else 0)
  | .jstr s =>
      match parsePyIntString s with
      | some n => .ok n
      | none => .error "ValueError"
  | _ => .error "TypeError"

/-- Lower-case hex digit. -/
def hexDigitChar (n : Nat) : Char :=
  "0123456789abcdef".toList.getD n '0'

/-- A JSON `\uXXXX` escape for a 16-bit code unit. -/
def uEscape (n : Nat) : List Char :=
  ['\\', 'u', hexDigitChar (n / 4096 % 16), hexDigitChar (n / 256 % 16),
   hexDigitChar (n / 16 % 16), hexDigitChar (n % 16)]

/-- Escaping of one character by CPython `json.dumps` with the default
`ensure_ascii=True`: printable ASCII other than quote and backslash is
kept, everything else is escaped (short escapes for the usual control
characters, `\uXXXX` otherwise, surrogate pairs above the BMP). -/
def escapeChar (c : Char) : List Char :=
  if c = '"' then ['\\', '"']
  else if c = '\\' then ['\\', '\\']
  else if c = '\x08' then ['\\', 'b']
  else if c = '\t' then ['\\', 't']
  else if c = '\n' then ['\\', 'n']
  else if c = '\x0c' then ['\\', 'f']
  else if c = '\r' then ['\\', 'r']
  else if c.toNat < 32 then uEscape c.toNat
  else if c.toNat < 127 then [c]
  else if c.toNat < 65536 then uEscape c.toNat
  else uEscape (55296 + (c.toNat - 65536) / 1024) ++
       uEscape (56320 + (c.toNat - 65536) % 1024)

/-- A JSON string literal for `s`. -/
def jsonQuote (s : String) : String :=
  "\"" ++ String.mk ((s.toList.map escapeChar).flatten) ++ "\""

/-- Smallest exponent `k` in `[start, start+fuel)` with `den ∣ 10^k`,
if any. -/
def decExpSearch (den : Nat) : Nat → Nat → Option Nat
  | _, 0 => none
  | k, fuel + 1 =>
      if 10 ^ k % den = 0 then some k else decExpSearch den (k + 1) fuel

/-- Rendering of a Python float by `repr`/`json.dumps`, modelled as the
exact decimal expansion of the rational (CPython prints the shortest
round-tripping decimal; the two agree on every decimally-representable
float, which covers all floats appearing in this development).  At
least one fractional digit is always printed, as CPython does. -/
def pyFloatRepr (q : ℚ) : String :=
  match decExpSearch q.den 1 64 with
  | some k =>
      let ds := (toString (q.num.natAbs * (10 ^ k / q.den))).toList
      let ds := List.replicate (k + 1 - ds.length) '0' ++ ds
      (if q.num < 0 then "-" else "") ++
        String.mk (ds.take (ds.length - k)) ++ "." ++
        String.mk (ds.drop (ds.length - k))
  | none => (if q.num < 0 then "-" else "") ++
        toString q.num.natAbs ++ "/" ++ toString q.den

mutual

/-- Model of CPython `json.dumps(v, separators=(",", ":"))`: minimal
separators, keys in the insertion (construction) order of each dict —
`sort_keys` is NOT set by the source, so key order is whatever order the
dict was built in. -/
def jsonDumps : JValue → String
  | .jnull => "null"
  | .jbool true => "true"
  | .jbool false => "false"
  | .jint n => toString n
  | .jfloat q => pyFloatRepr q
  | .jstr s => jsonQuote s
  | .jarr xs => "[" ++ jsonDumpsList xs ++ "]"
  | .jobj fs => "\x7b" ++ jsonDumpsFields fs ++ "\x7d"

/-- Comma-joined serialization of array elements. -/
def jsonDumpsList : List JValue → String
  | [] => ""
  | [v] => jsonDumps v
  | v :: w :: vs => jsonDumps v ++ "," ++ jsonDumpsList (w :: vs)

/-- Comma-joined serialization of object entries, in list order. -/
def jsonDumpsFields : List (String × JValue) → String
  | [] => ""
  | [(k, v)] => jsonQuote k ++ ":" ++ jsonDumps v
  | (k, v) :: p :: fs => jsonQuote k ++ ":" ++ jsonDumps v ++ "," ++ jsonDumpsFields (p :: fs)

end

/-- UTF-8 bytes of one character. -/
def utf8Bytes (c : Char) : List Nat :=
  let n := c.toNat
  if n < 128 then [n]
  else if n < 2048 then [192 + n / 64, 128 + n % 64]
  else if n < 65536 then [224 + n / 4096, 128 + n / 64 % 64, 128 + n % 64]
  else [240 + n / 262144, 128 + n / 4096 % 64, 128 + n / 64 % 64, 128 + n % 64]

/-- Python `s.encode("utf-8")` as a byte list. -/
def utf8Encode (s : String) : List Nat :=
  (s.toList.map utf8Bytes).flatten

/-! ### SHA-256, HMAC and base64 (models of `hashlib` / `hmac` / `base64`)

32-bit words are `Nat` values kept below `2^32` by explicit reduction
modulo `4294967296`; bytes are `Nat` values below 256. -/

/-- Addition modulo `2^32`. -/
def add32 (a b : Nat) : Nat := (a + b) % 4294967296

/-- Bitwise complement on 32-bit words. -/
def not32 (x : Nat) : Nat := Nat.xor (x % 4294967296) 4294967295

/-- Right rotation of a 32-bit word. -/
def rotr32 (x n : Nat) : Nat :=
  Nat.lor (x >>> n) ((x <<< (32 - n)) % 4294967296)

/-- SHA-256 round constants (FIPS 180-4). -/
def sha256K : List Nat :=
  [1116352408, 1899447441, 3049323471, 3921009573,
   961987163, 1508970993, 2453635748, 2870763221,
   3624381080, 310598401, 607225278, 1426881987,
   1925078388, 2162078206, 2614888103, 3248222580,
   3835390401, 4022224774, 264347078, 604807628,
   770255983, 1249150122, 1555081692, 1996064986,
   2554220882, 2821834349, 2952996808, 3210313671,
   3336571891, 3584528711, 113926993, 338241895,
   666307205, 773529912, 1294757372, 1396182291,
   1695183700, 1986661051, 2177026350, 2456956037,
   2730485921, 2820302411, 3259730800, 3345764771,
   3516065817, 3600352804, 4094571909, 275423344,
   430227734, 506948616, 659060556, 883997877,
   958139571, 1322822218, 1537002063, 1747873779,
   1955562222, 2024104815, 2227730452, 2361852424,
   2428436474, 2756734187, 3204031479, 3329325298]

/-- SHA-256 initial hash value (FIPS 180-4). -/
def sha256H0 : List Nat :=
  [1779033703, 3144134277, 1013904242, 2773480762,
   1359893119, 2600822924, 528734635, 1541459225]

/-- Big-endian 8-byte encoding of the bit length. -/
def toBE8 (n : Nat) : List Nat :=
  [n / 72057594037927936 % 256, n / 281474976710656 % 256,
   n / 1099511627776 % 256, n / 4294967296 % 256,
   n / 16777216 % 256, n / 65536 % 256, n / 256 % 256, n % 256]

/-- Big-endian 4-byte encoding of a 32-bit word. -/
def toBE4 (n : Nat) : List Nat :=
  [n / 16777216 % 256, n / 65536 % 256, n / 256 % 256, n % 256]

/-- SHA-256 padding: append `0x80`, zeros to 56 mod 64, then the
64-bit big-endian bit length. -/
def padMessage (msg : List Nat) : List Nat :=
  let l := msg.length
  let k := (64 - ((l + 9) % 64)) % 64
  msg ++ [0x80] ++ List.replicate k 0 ++ toBE8 (8 * l)

/-- Group bytes into big-endian 32-bit words. -/
def bytesToWords : List Nat → List Nat
  | b0 :: b1 :: b2 :: b3 :: rest =>
      (b0 * 16777216 + b1 * 65536 + b2 * 256 + b3) :: bytesToWords rest
  | _ => []

/-- Split a word list into 16-word blocks (`fuel` bounds the recursion;
callers pass the list length). -/
def chunk16 : Nat → List Nat → List (List Nat)
  | 0, _ => []
  | _, [] => []
  | fuel + 1, ws => ws.take 16 :: chunk16 fuel (ws.drop 16)

/-- Message-schedule extension: append words 16..63. -/
def sha256Extend : Nat → List Nat → List Nat
  | 0, ws => ws
  | fuel + 1, ws =>
      let i := ws.length
      let s0 :=
        Nat.xor (rotr32 (ws.getD (i - 15) 0) 7)
          (Nat.xor (rotr32 (ws.getD (i - 15) 0) 18) ((ws.getD (i - 15) 0) >>> 3))
      let s1 :=
        Nat.xor (rotr32 (ws.getD (i - 2) 0) 17)
          (Nat.xor (rotr32 (ws.getD (i - 2) 0) 19) ((ws.getD (i - 2) 0) >>> 10))
      sha256Extend fuel (ws ++ [add32 (add32 (ws.getD (i - 16) 0) s0) (add32 (ws.getD (i - 7) 0) s1)])

/-- One compression round on the state `[a,b,c,d,e,f,g,h]`. -/
def sha256Round (st : List Nat) (k w : Nat) : List Nat :=
  let a := st.getD 0 0
  let b := st.getD 1 0
  let c := st.getD 2 0
  let d := st.getD 3 0
  let e := st.getD 4 0
  let f := st.getD 5 0
  let g := st.getD 6 0
  let h := st.getD 7 0
  let bs1 := Nat.xor (rotr32 e 6) (Nat.xor (rotr32 e 11) (rotr32 e 25))
  let ch := Nat.xor (Nat.land e f) (Nat.land (not32 e) g)
  let t1 := add32 h (add32 bs1 (add32 ch (add32 k w)))
  let bs0 := Nat.xor (rotr32 a 2) (Nat.xor (rotr32 a 13) (rotr32 a 22))
  let mj := Nat.xor (Nat.land a b) (Nat.xor (Nat.land a c) (Nat.land b c))
  let t2 := add32 bs0 mj
  [add32 t1 t2, a, b, c, add32 d t1, e, f, g]

/-- Compress one 16-word block into the running state. -/
def sha256Block (st : List Nat) (block : List Nat) : List Nat :=
  let w := sha256Extend 48 block
  let fin := (sha256K.zip w).foldl (fun s kw => sha256Round s kw.1 kw.2) st
  List.zipWith add32 st fin

/-- SHA-256 digest (32 bytes) of a byte list. -/
def sha256 (msg : List Nat) : List Nat :=
  let ws := bytesToWords (padMessage msg)
  let final := (chunk16 ws.length ws).foldl sha256Block sha256H0
  (final.map toBE4).flatten

/-- HMAC-SHA256 (RFC 2104): digest of `key` when longer than the block
size, zero-padded to 64 bytes, inner/outer pads 0x36/0x5c. -/
def hmacSha256 (key msg : List Nat) : List Nat :=
  let k0 := if 64 < key.length then sha256 key else key
  let k1 := k0 ++ List.replicate (64 - k0.length) 0
  sha256 ((k1.map (fun b => Nat.xor b 0x5c)) ++
          sha256 ((k1.map (fun b => Nat.xor b 0x36)) ++ msg))

/-- The base64 alphabet. -/
def b64Char (n : Nat) : Char :=
  "ABCDEFGHIJKLMNOPQRSTUVWXYZabcdefghijklmnopqrstuvwxyz0123456789+/".toList.getD n 'A'

/-- Standard base64 of a byte list (`base64.b64encode`). -/
def b64encodeChars : List Nat → List Char
  | b0 :: b1 :: b2 :: rest =>
      b64Char (b0 / 4) :: b64Char (b0 % 4 * 16 + b1 / 16) ::
      b64Char (b1 % 16 * 4 + b2 / 64) :: b64Char (b2 % 64) :: b64encodeChars rest
  | [b0, b1] => [b64Char (b0 / 4), b64Char (b0 % 4 * 16 + b1 / 16), b64Char (b1 % 16 * 4), '=']
  | [b0] => [b64Char (b0 / 4), b64Char (b0 % 4 * 16), '=', '=']
  | [] => []

/-- `base64.b64encode(bytes).decode("utf-8")`. -/
def b64encode (bs : List Nat) : String :=
  String.mk (b64encodeChars bs)

/-! ### Timestamps

`datetime.utcnow().isoformat() + "Z"` is an effect of the builder and
is passed in as an explicit string parameter; the validator parses it
with `datetime.fromisoformat` after `replace("Z", "+00:00")`.  Instants
are represented as microseconds since the Unix epoch (`Int`); a naive
parsed datetime is interpreted at UTC, matching the subtraction
`datetime.now(timestamp.tzinfo) - timestamp` under a UTC clock. -/

/-- Python `s.replace(pat, rep)`: replace every (leftmost,
non-overlapping) occurrence.  Fuel-bounded structural recursion; the
empty-pattern case (unused here) is returned unchanged. -/
def listReplace (pat rep : List Char) : Nat → List Char → List Char
  | _, [] => []
  | 0, s => s
  | fuel + 1, c :: rest =>
      if pat.isPrefixOf (c :: rest) then
        rep ++ listReplace pat rep fuel ((c :: rest).drop pat.length)
      else
        c :: listReplace pat rep fuel rest

/-- Python `s.replace(pat, rep)` on strings. -/
def pyReplace (s pat rep : String) : String :=
  if pat.toList.isEmpty then s
  else String.mk (listReplace pat.toList rep.toList s.toList.length s.toList)

/-- Value of a decimal digit character. -/
def digitVal (c : Char) : Option Nat :=
  if c.isDigit then some (c.toNat - 48) else none

/-- Read exactly two digits. -/
def take2 : List Char → Option (Nat × List Char)
  | a :: b :: rest =>
      match digitVal a, digitVal b with
      | some x, some y => some (x * 10 + y, rest)
      | _, _ => none
  | _ => none

/-- Read exactly four digits. -/
def take4 (cs : List Char) : Option (Nat × List Char) :=
  match take2 cs with
  | some (a, rest) => (take2 rest).map (fun p => (a * 100 + p.1, p.2))
  | none => none

/-- Read up to `fuel` leading digits. -/
def grabDigits : Nat → List Char → (List Nat × List Char)
  | 0, cs => ([], cs)
  | fuel + 1, cs =>
      match cs with
      | [] => ([], [])
      | c :: rest =>
          match digitVal c with
          | some d =>
              let p := grabDigits fuel rest
              (d :: p.1, p.2)
          | none => ([], c :: rest)

/-- Gregorian leap year. -/
def isLeapYear (y : Nat) : Bool :=
  y % 4 = 0 && (y % 100 != 0 || y % 400 = 0)

/-- Length of a month. -/
def daysInMonth (y m : Nat) : Nat :=
  if m = 2 then (if isLeapYear y then 29 else 28)
  else if m = 4 || m = 6 || m = 9 || m = 11 then 30
  else 31

/-- Days in the months before `m` of year `y`. -/
def daysBeforeMonth (y m : Nat) : Nat :=
  let base :=
    match m with
    | 1 => 0 | 2 => 31 | 3 => 59 | 4 => 90 | 5 => 120 | 6 => 151
    | 7 => 181 | 8 => 212 | 9 => 243 | 10 => 273 | 11 => 304 | _ => 334
  if 3 ≤ m && isLeapYear y then base + 1 else base

/-- Proleptic Gregorian ordinal (0001-01-01 is day 1), as in CPython
`date.toordinal`. -/
def toOrdinal (y m d : Nat) : Nat :=
  (y - 1) * 365 + (y - 1) / 4 - (y - 1) / 100 + (y - 1) / 400 +
    daysBeforeMonth y m + d

/-- Microseconds since the Unix epoch of a civil date-time with a UTC
offset in minutes (1970-01-01 has ordinal 719163). -/
def epochUs (y m d h mi s us : Nat) (offMin : Int) : Int :=
  ((toOrdinal y m d : Int) - 719163) * 86400000000 +
    (h : Int) * 3600000000 + (mi : Int) * 60000000 +
    (s : Int) * 1000000 + (us : Int) - offMin * 60000000

/-- Parse a trailing `±HH:MM` UTC offset (empty input means a naive
datetime, interpreted at UTC by this model). -/
def parseOffset : List Char → Option Int
  | [] => some 0
  | c :: rest =>
      if c = '+' || c = '-' then
        match take2 rest with
        | some (oh, ':' :: rest2) =>
            match take2 rest2 with
            | some (om, []) =>
                if oh ≤ 23 && om ≤ 59 then
                  some (if c = '-' then -(((oh * 60 + om : Nat)) : Int)
                        else (((oh * 60 + om : Nat)) : Int))
                else none
            | _ => none
        | _ => none
      else none

/-- Parse `HH:MM[:SS[.ffffff]][±HH:MM]` into
`(hour, minute, second, microsecond, offset-minutes)`. -/
def parseTime (cs : List Char) : Option (Nat × Nat × Nat × Nat × Int) :=
  match take2 cs with
  | some (h, ':' :: r1) =>
      match take2 r1 with
      | some (mi, r2) =>
          let secPart : Option (Nat × Nat × List Char) :=
            match r2 with
            | ':' :: r3 =>
                match take2 r3 with
                | some (s, '.' :: r4) =>
                    let p := grabDigits 6 r4
                    if p.1.isEmpty then none
                    else some (s, (p.1.foldl (fun a d => a * 10 + d) 0) *
                                    10 ^ (6 - p.1.length), p.2)
                | some (s, r4) => some (s, 0, r4)
                | none => none
            | _ => some (0, 0, r2)
          match secPart with
          | some (s, us, r5) =>
              match parseOffset r5 with
              | some offMin =>
                  if h ≤ 23 && mi ≤ 59 && s ≤ 59 then some (h, mi, s, us, offMin)
                  else none
              | none => none
          | none => none
      | none => none
  | _ => none

/-- Model of CPython `datetime.fromisoformat` for the shapes exercised
here (`YYYY-MM-DD[<sep>HH:MM[:SS[.ffffff]][±HH:MM]]`, any single
separator character), returning microseconds since the epoch; `none`
models ValueError. -/
def fromIsoUs (str : String) : Option Int :=
  match take4 str.toList with
  | some (y, '-' :: r1) =>
      match take2 r1 with
      | some (mo, '-' :: r2) =>
          match take2 r2 with
          | some (d, r3) =>
              if 1 ≤ y && 1 ≤ mo && mo ≤ 12 && 1 ≤ d && d ≤ daysInMonth y mo then
                match r3 with
                | [] => some (epochUs y mo d 0 0 0 0 0)
                | _sep :: timeRest =>
                    match parseTime timeRest with
                    | some (h, mi, s, us, offMin) =>
                        some (epochUs y mo d h mi s us offMin)
                    | none => none
              else none
          | none => none
      | _ => none
  | _ => none

/-! ### Payload builder (`WebhookPayloadBuilder`) -/

/-- Is `pat` a contiguous sublist of the second list (Python substring
membership `pat in s`)? -/
def listIsInfix (pat : List Char) : List Char → Bool
  | [] => pat.isEmpty
  | c :: rest => pat.isPrefixOf (c :: rest) || listIsInfix pat rest

/-- Body of the per-object loop of `_compress_detection_details`
(lines 78-97): drop the object when `obj.get("confidence", 0) >= 0.7`
fails, else build `type`/`conf` (the bare `obj["type"]` lookup raises
KeyError when absent) and, when a `bounding_box` key exists, a 4-int
`bbox` from a dict (named fields, each defaulting to 0) or from a list
(elementwise `int`); a bounding box of any other class contributes no
`bbox` key.  A non-dict object raises AttributeError at the `.get`. -/
def compressObject : JValue → Except String (Option JValue)
  | .jobj ofs =>
      match pyGeFloat ((dlookup ofs "confidence").getD (.jint 0)) (mkRat 7 10) with
      | .error e => .error e
      | .ok false => .ok none
      | .ok true =>
          match dlookup ofs "type" with
          | none => .error "KeyError"
          | some ty =>
              match dlookup ofs "confidence" with
              | none => .error "KeyError"
              | some confVal =>
                  match pyRoundJ2 confVal with
                  | .error e => .error e
                  | .ok rounded =>
                      match dlookup ofs "bounding_box" with
                      | some (.jobj bfs) =>
                          match pyToInt ((dlookup bfs "x").getD (.jint 0)),
                                pyToInt ((dlookup bfs "y").getD (.jint 0)),
                                pyToInt ((dlookup bfs "width").getD (.jint 0)),
                                pyToInt ((dlookup bfs "height").getD (.jint 0)) with
                          | .error e, _, _, _ => .error e
                          | _, .error e, _, _ => .error e
                          | _, _, .error e, _ => .error e
                          | _, _, _, .error e => .error e
                          | .ok x, .ok y, .ok w, .ok h =>
                              .ok (some (.jobj [("type", ty), ("conf", rounded),
                                ("bbox", .jarr [.jint x, .jint y, .jint w, .jint h])]))
                      | some (.jarr xs) =>
                          match xs.mapM pyToInt with
                          | .error e => .error e
                          | .ok ints =>
                              .ok (some (.jobj [("type", ty), ("conf", rounded),
                                ("bbox", .jarr (ints.map JValue.jint))]))
                      | _ => .ok (some (.jobj [("type", ty), ("conf", rounded)]))
  | _ => .error "AttributeError"

/-- `_compress_detection_details` (lines 72-99).  `compressed` starts
empty; when an `objects` key exists its value is iterated and the kept
objects are appended in order.  Non-dict `details` follow CPython:
`"objects" in details` is a substring / membership / TypeError test, a
hit making `details["objects"]` raise TypeError; iterating a non-list
`objects` value raises unless the iteration is empty (empty str or
dict). -/
def compressDetectionDetails : JValue → Except String JValue
  | .jobj dfs =>
      match dlookup dfs "objects" with
      | none => .ok (.jobj [])
      | some (.jarr objs) =>
          match objs.mapM compressObject with
          | .error e => .error e
          | .ok outs => .ok (.jobj [("objects", .jarr (outs.filterMap id))])
      | some (.jstr s) =>
          if s.toList.isEmpty then .ok (.jobj [("objects", .jarr [])])
          else .error "AttributeError"
      | some (.jobj fs2) =>
          if fs2.isEmpty then .ok (.jobj [("objects", .jarr [])])
          else .error "AttributeError"
      | some _ => .error "TypeError"
  | .jstr s =>
      if listIsInfix "objects".toList s.toList then .error "TypeError"
      else .ok (.jobj [])
  | .jarr xs =>
      if xs.any (pyEqStr "objects") then .error "TypeError"
      else .ok (.jobj [])
  | _ => .error "TypeError"

/-- Allow-list of the `minimal` profile (line 54). -/
def essentialFields : List String :=
  ["incident_id", "frame_id", "confidence", "session_id"]

/-- Deny-list of the `standard` profile (line 59). -/
def excludedFields : List String :=
  ["debug_info", "raw_frame_data", "processing_metadata"]

/-- `_optimize_data_for_profile` (lines 49-70): `minimal` keeps only
the allow-list, `standard` drops the deny-list and compresses a
`detection_details` entry in place, anything else passes `data`
through. -/
def optimizeDataForProfile (data : Dict) (profile : String) : Except String Dict :=
  if profile = "minimal" then
    .ok (data.filter (fun p => essentialFields.contains p.1))
  else if profile = "standard" then
    let optimized := data.filter (fun p => !excludedFields.contains p.1)
    match dlookup optimized "detection_details" with
    | some dv =>
        match compressDetectionDetails dv with
        | .error e => .error e
        | .ok cv => .ok (dinsert optimized "detection_details" cv)
    | none => .ok optimized
  else
    .ok data

/-- `WebhookPayloadBuilder.__init__` configuration (lines 20-23). -/
structure WebhookPayloadBuilder where
  secret_key : String
  system_name : String := "frame-analyzer"
  version : String := "1.0.0"

/-- `_generate_request_id` (lines 101-105), its clock reading
(milliseconds) and uuid prefix passed explicitly. -/
def generateRequestId (timestampMs : Nat) (uniqueId : String) : String :=
  "req_" ++ toString timestampMs ++ "_" ++ uniqueId

/-- `WebhookPayloadBuilder._generate_signature` (lines 107-119): copy,
pop any `signature` field, `json.dumps(..., separators=(",", ":"))`,
UTF-8 encode, HMAC-SHA256 with the UTF-8 secret, base64, and the
`"sha256="` prefix. -/
def builderGenerateSignature (secretKey : String) (payload : Dict) : String :=
  let payloadBytes := utf8Encode (jsonDumps (.jobj (dremove payload "signature")))
  "sha256=" ++ b64encode (hmacSha256 (utf8Encode secretKey) payloadBytes)

/-- `WebhookValidator._generate_signature` (lines 179-187): as the
builder one but without the pop (its caller has already removed the
field). -/
def validatorGenerateSignature (secretKey : String) (payload : Dict) : String :=
  "sha256=" ++ b64encode (hmacSha256 (utf8Encode secretKey)
    (utf8Encode (jsonDumps (.jobj payload))))

/-- The `base_payload` dict literal of lines 29-43, before the
signature is attached; `optimized` is the already-reduced `data`. -/
def basePayloadOf (b : WebhookPayloadBuilder) (eventType : String) (optimized : Dict)
    (priority tsStr uuidSuffix : String) (reqMs : Nat) (reqUuid : String) : Dict :=
  [("event", .jstr eventType),
   ("timestamp", .jstr tsStr),
   ("source", .jobj
      [("system", .jstr b.system_name),
       ("version", .jstr b.version),
       ("instance_id", .jstr (b.system_name ++ "-" ++ uuidSuffix))]),
   ("data", .jobj optimized),
   ("meta", .jobj
      [("request_id", .jstr (generateRequestId reqMs reqUuid)),
       ("priority", .jstr priority),
       ("schema_version", .jstr "1.0.0")])]

/-- `create_payload` (lines 25-47).  The effectful inputs — the
`datetime.utcnow().isoformat() + "Z"` string, the instance-id uuid
suffix, and the clock/uuid feeding `_generate_request_id` — are
explicit parameters.  The envelope dict is built in the literal order
of lines 29-43 and the signature is attached last (line 46). -/
def createPayload (b : WebhookPayloadBuilder) (eventType : String) (data : Dict)
    (profile priority : String) (tsStr uuidSuffix : String)
    (reqMs : Nat) (reqUuid : String) : Except String Dict :=
  match optimizeDataForProfile data profile with
  | .error e => .error e
  | .ok optimized =>
      let basePayload : Dict :=
        basePayloadOf b eventType optimized priority tsStr uuidSuffix reqMs reqUuid
      .ok (dinsert basePayload "signature"
            (.jstr (builderGenerateSignature b.secret_key basePayload)))

/-! ### Payload validator (`WebhookValidator`)

The validator owns `secret_key` and the mutable `processed_requests`
set; the set is passed and returned explicitly (state passing), as a
list of the inserted values in insertion order. -/

/-- The `{valid, errors}` verdict dict (lines 131-134). -/
structure ValidationResult where
  valid : Bool
  errors : List String

/-- Required envelope fields (line 137). -/
def requiredFields : List String :=
  ["event", "timestamp", "source", "data", "meta"]

/-- Structural check (lines 136-140): one error per missing field, in
list order. -/
def structuralErrors (payload : Dict) : List String :=
  (requiredFields.filter (fun f => !dcontains payload f)).map
    (fun f => "Missing required field: " ++ f)

/-- Freshness check (lines 142-150): when a `timestamp` key exists,
`replace("Z", "+00:00")`, parse (a parse failure is the caught
ValueError), and flag an age strictly above 300 seconds.  A non-str
timestamp value raises AttributeError at `.replace`, which the
`except ValueError` does not catch. -/
def timestampCheck (payload : Dict) (nowUs : Int) : Except String (List String) :=
  match dlookup payload "timestamp" with
  | none => .ok []
  | some (.jstr s) =>
      match fromIsoUs (pyReplace s "Z" "+00:00") with
      | none => .ok ["Invalid timestamp format"]
      | some tsUs =>
          if 300000000 < nowUs - tsUs then .ok ["Timestamp too old"]
          else .ok []
  | some _ => .error "AttributeError"

/-- The `payload.get("meta", dict()).get("request_id")` expression of
line 153: None (jnull) when `meta` or `request_id` is absent; a
non-dict `meta` raises AttributeError at the inner `.get`. -/
def getRequestId (payload : Dict) : Except String JValue :=
  match dlookup payload "meta" with
  | none => .ok JValue.jnull
  | some (.jobj mfs) => .ok ((dlookup mfs "request_id").getD .jnull)
  | some _ => .error "AttributeError"

/-- Replay check (lines 152-158): truthiness gate on the request id,
then set membership — a duplicate is flagged, a fresh id is inserted
into the replay set as a side effect.  An unhashable (list/dict) truthy
id raises TypeError at the membership test. -/
def replayCheck (payload : Dict) (processed : List JValue) :
    Except String (List String × List JValue) :=
  match getRequestId payload with
  | .error e => .error e
  | .ok requestId =>
      if pyTruthy requestId then
        match requestId with
        | .jarr _ => .error "TypeError"
        | .jobj _ => .error "TypeError"
        | _ =>
            if setMem processed requestId then
              .ok (["Duplicate request ID (replay attack)"], processed)
            else
              .ok ([], processed ++ [requestId])
      else
        .ok ([], processed)

/-- `_verify_signature` (lines 167-177): recompute over the payload
with `signature` popped, strip `"sha256="` from both strings via
`str.replace`, and compare (`hmac.compare_digest` is constant-time
string equality; both strings here are ASCII). -/
def verifySignature (secretKey : String) (payload : Dict)
    (receivedSignature : String) : Bool :=
  let expected := validatorGenerateSignature secretKey (dremove payload "signature")
  pyReplace expected "sha256=" "" == pyReplace receivedSignature "sha256=" ""

/-- `validate_payload` (lines 129-165): the four checks run in order
with no short-circuiting, each appending its failure reasons, and
`valid` is the emptiness of the error list.  A non-dict `payload`
raises before the verdict is built, exactly as CPython does: for a str,
the membership tests run and then either `payload["timestamp"]` raises
TypeError (when `"timestamp"` occurs as a substring) or the replay
`.get` raises AttributeError; for a list, likewise with element
membership; for any other class the first `in` raises TypeError. -/
def validatePayload (secretKey : String) (processed : List JValue) (payload : JValue)
    (receivedSignature : String) (nowUs : Int) :
    Except String (ValidationResult × List JValue) :=
  match payload with
  | .jobj fields =>
      match timestampCheck fields nowUs with
      | .error e => .error e
      | .ok tErrs =>
          match replayCheck fields processed with
          | .error e => .error e
          | .ok (rErrs, processed2) =>
              let errors := structuralErrors fields ++ tErrs ++ rErrs ++
                (if verifySignature secretKey fields receivedSignature then []
                 else ["Invalid signature"])
              .ok ({ valid := errors.isEmpty, errors := errors }, processed2)
  | .jstr s =>
      .error (if listIsInfix "timestamp".toList s.toList then "TypeError"
              else "AttributeError")
  | .jarr xs =>
      .error (if xs.any (pyEqStr "timestamp") then "TypeError"
              else "AttributeError")
  | _ => .error "TypeError"

/-! ### Shared lemmas -/

lemma generateRequestId_ne_empty (ms : Nat) (uid : String) :
    generateRequestId ms uid ≠ "" := by
  intro h
  have hl := congrArg String.length h
  simp only [generateRequestId, String.length_append] at hl
  have h4 : String.length "req_" = 4 := rfl
  have h1 : String.length "_" = 1 := rfl
  have h0 : String.length "" = 0 := rfl
  omega

/-- The freshness check can only report these error lists. -/
lemma timestampCheck_ok_cases (payload : Dict) (nowUs : Int) (t : List String)
    (h : timestampCheck payload nowUs = .ok t) :
    t = [] ∨ t = ["Invalid timestamp format"] ∨ t = ["Timestamp too old"] := by
  rw [timestampCheck] at h
  split at h
  · exact Or.inl (by injection h with h1; exact h1.symm)
  · split at h
    · exact Or.inr (Or.inl (by injection h with h1; exact h1.symm))
    · split at h
      · exact Or.inr (Or.inr (by injection h with h1; exact h1.symm))
      · exact Or.inl (by injection h with h1; exact h1.symm)
  · exact Except.noConfusion h

/-- The replay check either leaves the set alone or appends one id. -/
lemma replayCheck_set_cases (payload : Dict) (processed : List JValue)
    (es : List String) (p2 : List JValue)
    (h : replayCheck payload processed = .ok (es, p2)) :
    p2 = processed ∨ ∃ v, p2 = processed ++ [v] := by
  rw [replayCheck] at h
  split at h
  · exact Except.noConfusion h
  · split at h
    · split at h
      · exact Except.noConfusion h
      · exact Except.noConfusion h
      · split at h
        · injection h with h1
          exact Or.inl (congrArg Prod.snd h1).symm
        · injection h with h1
          exact Or.inr ⟨_, (congrArg Prod.snd h1).symm⟩
    · injection h with h1
      exact Or.inl (congrArg Prod.snd h1).symm

/-- Inversion of a successful `validate_payload` call on a dict
payload: the verdict is exactly the concatenation of the four checks,
and `valid` is the emptiness of the error list. -/
lemma validatePayload_ok_inv
    (secretKey : String) (processed : List JValue) (fields : Dict)
    (sig : String) (nowUs : Int) (r : ValidationResult) (p2 : List JValue)
    (h : validatePayload secretKey processed (.jobj fields) sig nowUs = .ok (r, p2)) :
    ∃ tErrs rErrs,
      timestampCheck fields nowUs = .ok tErrs ∧
      replayCheck fields processed = .ok (rErrs, p2) ∧
      r.errors = structuralErrors fields ++ tErrs ++ rErrs ++
        (if verifySignature secretKey fields sig then [] else ["Invalid signature"]) ∧
      r.valid = r.errors.isEmpty := by
  rw [validatePayload] at h
  split at h
  · exact Except.noConfusion h
  · rename_i tErrs ht
    split at h
    · exact Except.noConfusion h
    · rename_i rErrs rp2 hr
      injection h with h1
      rw [Prod.mk.injEq] at h1
      obtain ⟨hfst, hsnd⟩ := h1
      refine ⟨tErrs, rErrs, ht, ?_, ?_, ?_⟩
      · rw [← hsnd]; exact hr
      · rw [← hfst]
      · rw [← hfst]

/-- A missing required field contributes its structural error. -/
lemma mem_structuralErrors_of_missing (fields : Dict) (f : String)
    (hf : f ∈ requiredFields) (h : dcontains fields f = false) :
    ("Missing required field: " ++ f) ∈ structuralErrors fields := by
  unfold structuralErrors
  exact List.mem_map_of_mem _ (List.mem_filter.mpr ⟨hf, by simp [h]⟩)

/-- The replay error string is never produced by the structural check. -/
lemma dup_not_mem_structuralErrors (fields : Dict) :
    "Duplicate request ID (replay attack)" ∉ structuralErrors fields := by
  intro hmem
  unfold structuralErrors at hmem
  obtain ⟨f, hf, heq⟩ := List.mem_map.mp hmem
  have hf5 : f ∈ requiredFields := (List.mem_filter.mp hf).1
  simp only [requiredFields, List.mem_cons, List.mem_singleton] at hf5
  rcases hf5 with rfl | rfl | rfl | rfl | rfl | h5
  · exact absurd heq (by decide)
  · exact absurd heq (by decide)
  · exact absurd heq (by decide)
  · exact absurd heq (by decide)
  · exact absurd heq (by decide)
  · exact absurd h5 (by simp)

/-- A validation call only ever appends to the replay set, so a
request id once recorded stays recorded. -/
lemma validatePayload_set_monotone (sk : String) (s : List JValue) (pl : JValue)
    (sg : String) (nw : Int) (r : ValidationResult) (s2 : List JValue) (v : JValue)
    (h : validatePayload sk s pl sg nw = .ok (r, s2)) (hv : setMem s v = true) :
    setMem s2 v = true := by
  cases pl with
  | jobj fields =>
      obtain ⟨tErrs, rErrs, _, hr, _, _⟩ := validatePayload_ok_inv sk s fields sg nw r s2 h
      rcases replayCheck_set_cases fields s rErrs s2 hr with rfl | ⟨w, rfl⟩
      · exact hv
      · simp only [setMem, List.any_append] at hv ⊢
        simp [hv]
  | jnull => exact Except.noConfusion h
  | jbool x => exact Except.noConfusion h
  | jint n => exact Except.noConfusion h
  | jfloat q => exact Except.noConfusion h
  | jstr st => exact Except.noConfusion h
  | jarr xs => exact Except.noConfusion h

lemma dcontains_map_update (d : Dict) (k k' : String) (v : JValue) :
    dcontains (d.map (fun p => if p.1 == k then (k, v) else p)) k' = dcontains d k' := by
  induction d with
  | nil => rfl
  | cons p rest ih =>
      show (((if p.1 == k then (k, v) else p).1 == k') ||
          dcontains (rest.map (fun p => if p.1 == k then (k, v) else p)) k') =
        ((p.1 == k') || dcontains rest k')
      rw [ih]
      by_cases hp : (p.1 == k) = true
      · rw [if_pos hp, eq_of_beq hp]
      · rw [if_neg hp]

lemma dcontains_dinsert_ne (d : Dict) (k k' : String) (v : JValue)
    (hne : (k == k') = false) :
    dcontains (dinsert d k v) k' = dcontains d k' := by
  unfold dinsert
  split
  · exact dcontains_map_update d k k' v
  · simp [dcontains, List.any_append, List.any_cons, hne]

lemma dlookup_map_update (d : Dict) (k : String) (v : JValue)
    (hc : dcontains d k = true) :
    dlookup (d.map (fun p => if p.1 == k then (k, v) else p)) k = some v := by
  induction d with
  | nil => exact absurd hc (by simp [dcontains])
  | cons p rest ih =>
      by_cases hp : (p.1 == k) = true
      · simp [dlookup, List.find?, hp]
      · have hc' : dcontains rest k = true := by
          simpa [dcontains, List.any_cons, hp] using hc
        simpa [dlookup, List.find?, hp] using ih hc'

lemma dlookup_append_singleton (d : Dict) (k : String) (v : JValue)
    (hc : dcontains d k = false) :
    dlookup (d ++ [(k, v)]) k = some v := by
  induction d with
  | nil => simp [dlookup, List.find?]
  | cons p rest ih =>
      have hp : (p.1 == k) = false := by
        by_cases h : (p.1 == k) = true
        · simp [dcontains, List.any_cons, h] at hc
        · cases hb : (p.1 == k)
          · rfl
          · exact absurd hb h
      have hc' : dcontains rest k = false := by
        simpa [dcontains, List.any_cons, hp] using hc
      simpa [dlookup, List.find?, hp] using ih hc'

lemma dlookup_dinsert_self (d : Dict) (k : String) (v : JValue) :
    dlookup (dinsert d k v) k = some v := by
  unfold dinsert
  split
  · exact dlookup_map_update d k v (by assumption)
  · rename_i hc
    exact dlookup_append_singleton d k v (by simpa using hc)

lemma dcontains_filter_excluded (data : Dict) (k : String)
    (hk : k ∈ excludedFields) :
    dcontains (data.filter (fun p => !excludedFields.contains p.1)) k = false := by
  induction data with
  | nil => rfl
  | cons p rest ih =>
      by_cases hp : p.1 ∈ excludedFields
      · simpa [List.filter_cons, hp] using ih
      · have hne : (p.1 == k) = false := by
          refine beq_eq_false_iff_ne.mpr ?_
          intro he
          rw [he] at hp
          exact hp hk
        simpa [List.filter_cons, hp, dcontains, List.any_cons, hne] using ih

/-! ## Claims -/

/-- Envelope content built with keys inserted in the order a, b. -/
def envInsertedAB : Dict := [("a", .jstr "x"), ("b", .jstr "y")]

/-- The same key-value map built with keys inserted in the order b, a. -/
def envInsertedBA : Dict := [("b", .jstr "y"), ("a", .jstr "x")]

/-- C1: the claim asserts that the serialization used for signing gives
the same bytes for the same key-value map regardless of key insertion
order.  The source serializes with `json.dumps(..., separators=(",",
":"))` and no `sort_keys`, so keys are emitted in insertion order:
`envInsertedAB` and `envInsertedBA` agree on every lookup (they are
equal as maps) yet serialize to different canonical bytes and receive
different HMAC-SHA256 signatures under the same secret. -/
theorem c1_signing_serialization_depends_on_insertion_order :
    (∀ k, dlookup envInsertedAB k = dlookup envInsertedBA k) ∧
    jsonDumps (.jobj envInsertedAB) ≠ jsonDumps (.jobj envInsertedBA) ∧
    builderGenerateSignature "secret" envInsertedAB ≠
      builderGenerateSignature "secret" envInsertedBA := by
  refine ⟨?_, by decide, by decide⟩
  intro k
  rcases eq_or_ne k "a" with rfl | ha
  · rfl
  · rcases eq_or_ne k "b" with rfl | hb
    · rfl
    · have ha' : ("a" == k) = false := beq_eq_false_iff_ne.mpr (Ne.symm ha)
      have hb' : ("b" == k) = false := beq_eq_false_iff_ne.mpr (Ne.symm hb)
      simp [envInsertedAB, envInsertedBA, dlookup, List.find?, ha', hb']

/-- C10: `create_payload` is a partial function on arbitrary data: under
the standard profile, a detection object whose confidence passes the
0.7 gate but which has no "type" key makes the unguarded `obj["type"]`
lookup (line 82) raise KeyError, so the call fails with an exception
instead of returning an envelope. -/
theorem c10_create_payload_raises_keyerror_without_type :
    createPayload { secret_key := "k" } "incident_detected"
      [("detection_details", .jobj [("objects",
        .jarr [.jobj [("confidence", .jfloat (mkRat 4 5))]])])]
      "standard" "medium" "2024-06-15T10:00:00Z" "abcd1234" 0 "u" =
      .error "KeyError" := rfl

/-- C7 counterexample: on a non-mapping payload (here the int 5) the
source raises — the first `in` test on an int raises TypeError — rather
than returning a verdict carrying a distinct "malformed envelope"
error; no such error string exists anywhere in the code. -/
theorem c7_counterexample_nonmapping_raises :
    validatePayload "k" [] (.jint 5) "sig" 0 = .error "TypeError" := rfl

/-- C7 (amended): `validate_payload` never returns a verdict for a
non-mapping payload; every such call raises (TypeError or
AttributeError, depending on the input shape), so the per-field checks
never complete and no "malformed envelope" error is reported. -/
theorem c7_nonmapping_input_always_raises
    (secretKey : String) (processed : List JValue) (payload : JValue)
    (sig : String) (nowUs : Int)
    (h : ∀ fields, payload ≠ .jobj fields) :
    ∃ e, validatePayload secretKey processed payload sig nowUs = .error e := by
  cases payload with
  | jobj fields => exact absurd rfl (h fields)
  | jnull => exact ⟨_, rfl⟩
  | jbool x => exact ⟨_, rfl⟩
  | jint n => exact ⟨_, rfl⟩
  | jfloat q => exact ⟨_, rfl⟩
  | jstr s => exact ⟨_, rfl⟩
  | jarr xs => exact ⟨_, rfl⟩

/-- C7 witness: the amended statement at the concrete non-mapping
input 5. -/
theorem c7_nonmapping_input_always_raises_witness :
    ∃ e, validatePayload "k" [] (.jint 5) "sig" 0 = .error e :=
  c7_nonmapping_input_always_raises "k" [] (.jint 5) "sig" 0
    (fun _ h => JValue.noConfusion h)

/-- C4: for a parsable timestamp the freshness check flags exactly the
ages strictly above 300 seconds: the error list is empty iff the age is
at most 300 s; in particular age 299 s passes, age 301 s yields
"Timestamp too old", and a timestamp in the future (negative age) is
never flagged as stale. -/
theorem c4_freshness_rejects_exactly_over_300s
    (payload : Dict) (s : String) (tsUs nowUs : Int)
    (hts : dlookup payload "timestamp" = some (.jstr s))
    (hparse : fromIsoUs (pyReplace s "Z" "+00:00") = some tsUs) :
    timestampCheck payload nowUs =
      .ok (if 300000000 < nowUs - tsUs then ["Timestamp too old"] else []) ∧
    (nowUs - tsUs = 299000000 → timestampCheck payload nowUs = .ok []) ∧
    (nowUs - tsUs = 301000000 →
      timestampCheck payload nowUs = .ok ["Timestamp too old"]) ∧
    (nowUs < tsUs → timestampCheck payload nowUs = .ok []) := by
  have hbase : timestampCheck payload nowUs =
      .ok (if 300000000 < nowUs - tsUs then ["Timestamp too old"] else []) := by
    simp only [timestampCheck, hts, hparse]
    split <;> rfl
  refine ⟨hbase, ?_, ?_, ?_⟩
  · intro h299; rw [hbase, if_neg (by omega)]
  · intro h301; rw [hbase, if_pos (by omega)]
  · intro hfut; rw [hbase, if_neg (by omega)]

/-- C4 witness: the boundary instances at the concrete timestamp
2024-06-15T10:00:00Z, which parses to 1718445600000000 µs: ages of
exactly 299 s, 301 s and -100 s. -/
theorem c4_freshness_rejects_exactly_over_300s_witness :
    timestampCheck [("timestamp", .jstr "2024-06-15T10:00:00Z")]
      1718445899000000 = .ok [] ∧
    timestampCheck [("timestamp", .jstr "2024-06-15T10:00:00Z")]
      1718445901000000 = .ok ["Timestamp too old"] ∧
    timestampCheck [("timestamp", .jstr "2024-06-15T10:00:00Z")]
      1718445500000000 = .ok [] :=
  ⟨(c4_freshness_rejects_exactly_over_300s
      [("timestamp", .jstr "2024-06-15T10:00:00Z")] "2024-06-15T10:00:00Z"
      1718445600000000 1718445899000000 rfl rfl).2.1 (by decide),
   (c4_freshness_rejects_exactly_over_300s
      [("timestamp", .jstr "2024-06-15T10:00:00Z")] "2024-06-15T10:00:00Z"
      1718445600000000 1718445901000000 rfl rfl).2.2.1 (by decide),
   (c4_freshness_rejects_exactly_over_300s
      [("timestamp", .jstr "2024-06-15T10:00:00Z")] "2024-06-15T10:00:00Z"
      1718445600000000 1718445500000000 rfl rfl).2.2.2 (by decide)⟩

/-- C9: a compressed `detection_details` dict carries at most the
single key "objects" — every other input key is removed — and is the
empty dict when the input has no "objects" key; the same holds for the
value installed under "detection_details" by the standard profile. -/
theorem c9_compressed_details_keep_only_objects :
    (∀ (dfs : Dict) (cv : JValue), compressDetectionDetails (.jobj dfs) = .ok cv →
       ∃ d', cv = .jobj d' ∧ (∀ k, dcontains d' k = true → k = "objects") ∧
         (dlookup dfs "objects" = none → d' = [])) ∧
    (∀ (data dfs d2 : Dict),
       dlookup (data.filter (fun p => !excludedFields.contains p.1))
         "detection_details" = some (.jobj dfs) →
       optimizeDataForProfile data "standard" = .ok d2 →
       ∃ d', dlookup d2 "detection_details" = some (.jobj d') ∧
         (∀ k, dcontains d' k = true → k = "objects") ∧
         (dlookup dfs "objects" = none → d' = [])) := by
  have honly : ∀ (x : JValue) (k : String),
      dcontains [("objects", x)] k = true → k = "objects" := by
    intro x k hk
    simp only [dcontains, List.any_cons, List.any_nil, Bool.or_false] at hk
    exact (eq_of_beq hk).symm
  have hmain : ∀ (dfs : Dict) (cv : JValue),
      compressDetectionDetails (.jobj dfs) = .ok cv →
      ∃ d', cv = .jobj d' ∧ (∀ k, dcontains d' k = true → k = "objects") ∧
        (dlookup dfs "objects" = none → d' = []) := by
    intro dfs cv h
    rw [compressDetectionDetails] at h
    split at h
    · injection h with h1
      exact ⟨[], h1.symm, fun k hk => by simp [dcontains] at hk, fun _ => rfl⟩
    · rename_i objs hobj
      split at h
      · exact Except.noConfusion h
      · injection h with h1
        refine ⟨_, h1.symm, honly _, fun hnone => ?_⟩
        rw [hnone] at hobj
        exact Option.noConfusion hobj
    · rename_i s hobj
      split at h
      · injection h with h1
        refine ⟨_, h1.symm, honly _, fun hnone => ?_⟩
        rw [hnone] at hobj
        exact Option.noConfusion hobj
      · exact Except.noConfusion h
    · rename_i fs2 hobj
      split at h
      · injection h with h1
        refine ⟨_, h1.symm, honly _, fun hnone => ?_⟩
        rw [hnone] at hobj
        exact Option.noConfusion hobj
      · exact Except.noConfusion h
    · exact Except.noConfusion h
  refine ⟨hmain, ?_⟩
  intro data dfs d2 hdd hopt
  rw [optimizeDataForProfile, if_neg (by decide), if_pos rfl] at hopt
  simp only [] at hopt
  rw [hdd] at hopt
  simp only [] at hopt
  split at hopt
  · exact Except.noConfusion hopt
  · rename_i cv hcv
    injection hopt with h2
    obtain ⟨d', rfl, honly', hempty⟩ := hmain dfs cv hcv
    refine ⟨d', ?_, honly', hempty⟩
    rw [← h2]
    exact dlookup_dinsert_self _ _ _

/-- C9 witness: a detection_details dict with a foreign key and no
objects key compresses, through the standard profile, to the empty
dict under "detection_details". -/
theorem c9_compressed_details_keep_only_objects_witness :
    ∃ d', dlookup [("detection_details", .jobj [])] "detection_details" =
        some (.jobj d') ∧
      (∀ k, dcontains d' k = true → k = "objects") ∧
      (dlookup [("zones", .jarr [])] "objects" = none → d' = []) :=
  c9_compressed_details_keep_only_objects.2
    [("detection_details", .jobj [("zones", .jarr [])])]
    [("zones", .jarr [])] [("detection_details", .jobj [])] rfl rfl

/-- C8: when the envelope has no meta dict, or its meta dict has no
request_id key, or the request_id value is falsy (e.g. the empty
string), the replay check is skipped entirely: it reports no error and
inserts nothing, so the replay set is unchanged and — the call being
deterministic in the unchanged set — the envelope can be validated any
number of times without a replay rejection. -/
theorem c8_falsy_request_id_skips_replay
    (fields : Dict)
    (h : dlookup fields "meta" = none ∨
         (∃ mfs, dlookup fields "meta" = some (.jobj mfs) ∧
            dlookup mfs "request_id" = none) ∨
         (∃ mfs v, dlookup fields "meta" = some (.jobj mfs) ∧
            dlookup mfs "request_id" = some v ∧ pyTruthy v = false)) :
    (∀ processed, replayCheck fields processed = .ok ([], processed)) ∧
    (∀ (secretKey : String) (processed : List JValue) (sig : String) (nowUs : Int)
       (r : ValidationResult) (p2 : List JValue),
       validatePayload secretKey processed (.jobj fields) sig nowUs = .ok (r, p2) →
       p2 = processed ∧ "Duplicate request ID (replay attack)" ∉ r.errors) := by
  have hfalsy : ∃ v, getRequestId fields = .ok v ∧ pyTruthy v = false := by
    rcases h with hnone | ⟨mfs, hmeta, hrid⟩ | ⟨mfs, v, hmeta, hrid, hv⟩
    · exact ⟨.jnull, by simp only [getRequestId, hnone], rfl⟩
    · exact ⟨.jnull, by simp only [getRequestId, hmeta, hrid, Option.getD_none], rfl⟩
    · exact ⟨v, by simp only [getRequestId, hmeta, hrid, Option.getD_some], hv⟩
  obtain ⟨v, hget, hv⟩ := hfalsy
  have hreplay : ∀ processed, replayCheck fields processed = .ok ([], processed) := by
    intro processed
    simp only [replayCheck, hget, hv]
    rfl
  refine ⟨hreplay, ?_⟩
  intro secretKey processed sig nowUs r p2 hcall
  obtain ⟨tErrs, rErrs, ht, hr, herr, _⟩ :=
    validatePayload_ok_inv secretKey processed fields sig nowUs r p2 hcall
  rw [hreplay processed] at hr
  injection hr with hr1
  have hE : rErrs = [] := ((congrArg Prod.fst hr1) : ([] : List String) = rErrs).symm
  have hP : p2 = processed := ((congrArg Prod.snd hr1) : processed = p2).symm
  refine ⟨hP, ?_⟩
  rw [herr, hE]
  intro hmem
  rcases List.mem_append.mp hmem with hmem1 | hmemg
  · rcases List.mem_append.mp hmem1 with hmem2 | hmemr
    · rcases List.mem_append.mp hmem2 with hmems | hmemt
      · exact dup_not_mem_structuralErrors fields hmems
      · rcases timestampCheck_ok_cases fields nowUs tErrs ht with rfl | rfl | rfl
        · simp at hmemt
        · simp at hmemt
        · simp at hmemt
    · simp at hmemr
  · split at hmemg
    · simp at hmemg
    · simp at hmemg

/-- C8 witness: an envelope whose meta carries an empty request_id,
validated against a nonempty replay set: no replay error, set
unchanged. -/
theorem c8_falsy_request_id_skips_replay_witness :
    replayCheck [("meta", .jobj [("request_id", .jstr "")])] [.jstr "other"] =
      .ok ([], [.jstr "other"]) ∧
    ([.jstr "other"] : List JValue) = [.jstr "other"] ∧
    "Duplicate request ID (replay attack)" ∉
      (["Missing required field: event", "Missing required field: timestamp",
        "Missing required field: source", "Missing required field: data",
        "Invalid signature"] : List String) := by
  have h := c8_falsy_request_id_skips_replay
    [("meta", .jobj [("request_id", .jstr "")])]
    (Or.inr (Or.inr ⟨[("request_id", .jstr "")], .jstr "", rfl, rfl, rfl⟩))
  refine ⟨h.1 [.jstr "other"], ?_⟩
  exact h.2 "k" [.jstr "other"] "s" 0
    ⟨false, ["Missing required field: event", "Missing required field: timestamp",
             "Missing required field: source", "Missing required field: data",
             "Invalid signature"]⟩ [.jstr "other"] (by rfl)

/-- C5: every successful validation runs all four checks and returns
exactly their concatenated failure reasons — structural, then
freshness, then replay, then signature, with no short-circuiting — and
`valid` is true iff that list is empty; in particular an envelope
missing `data` whose signature check fails reports both "Missing
required field: data" and "Invalid signature" in the same call. -/
theorem c5_non_short_circuiting_accumulation
    (secretKey : String) (processed : List JValue) (fields : Dict)
    (sig : String) (nowUs : Int) (r : ValidationResult) (p2 : List JValue)
    (hcall : validatePayload secretKey processed (.jobj fields) sig nowUs =
      .ok (r, p2)) :
    (∃ tErrs rErrs,
       timestampCheck fields nowUs = .ok tErrs ∧
       replayCheck fields processed = .ok (rErrs, p2) ∧
       r.errors = structuralErrors fields ++ tErrs ++ rErrs ++
         (if verifySignature secretKey fields sig then []
          else ["Invalid signature"])) ∧
    (r.valid = true ↔ r.errors = []) ∧
    (dcontains fields "data" = false →
     verifySignature secretKey fields sig = false →
     "Missing required field: data" ∈ r.errors ∧
       "Invalid signature" ∈ r.errors) := by
  obtain ⟨tErrs, rErrs, ht, hr, herr, hval⟩ :=
    validatePayload_ok_inv secretKey processed fields sig nowUs r p2 hcall
  refine ⟨⟨tErrs, rErrs, ht, hr, herr⟩, ?_, ?_⟩
  · rw [hval]
    exact List.isEmpty_iff
  · intro hdata hsigf
    rw [herr]
    have h1 : "Missing required field: data" ∈ structuralErrors fields :=
      mem_structuralErrors_of_missing fields "data" (by simp [requiredFields]) hdata
    constructor
    · simp [List.mem_append, h1]
    · simp [List.mem_append, hsigf]

/-- C5 witness: an envelope containing only an `event` field, presented
with the signature string "bad": the one call reports the missing
`data` field and the invalid signature together. -/
theorem c5_non_short_circuiting_accumulation_witness :
    ("Missing required field: data" ∈
      (["Missing required field: timestamp", "Missing required field: source",
        "Missing required field: data", "Missing required field: meta",
        "Invalid signature"] : List String)) ∧
    ("Invalid signature" ∈
      (["Missing required field: timestamp", "Missing required field: source",
        "Missing required field: data", "Missing required field: meta",
        "Invalid signature"] : List String)) :=
  (c5_non_short_circuiting_accumulation "k" [] [("event", .jstr "e")] "bad" 0
    ⟨false, ["Missing required field: timestamp", "Missing required field: source",
             "Missing required field: data", "Missing required field: meta",
             "Invalid signature"]⟩ [] (by rfl)).2.2 (by rfl) (by rfl)

/-- C3: a truthy request id not yet in the replay set is inserted by
the validation call even when the verdict is invalid for other reasons
(the result `r` is unconstrained); afterwards any call presenting the
same id against any set containing it reports the replay error, and
validation calls never remove ids from the set. -/
theorem c3_request_id_consumed_even_on_failure
    (secretKey : String) (processed : List JValue) (fields : Dict)
    (sig : String) (nowUs : Int) (rid : String)
    (hrid : getRequestId fields = .ok (.jstr rid))
    (hne : rid ≠ "")
    (hmem : setMem processed (.jstr rid) = false)
    (r : ValidationResult) (p2 : List JValue)
    (hcall : validatePayload secretKey processed (.jobj fields) sig nowUs =
      .ok (r, p2)) :
    p2 = processed ++ [.jstr rid] ∧
    setMem p2 (.jstr rid) = true ∧
    (∀ (sk2 : String) (s2 : List JValue) (fields2 : Dict) (sig2 : String)
       (now2 : Int) (r2 : ValidationResult) (p3 : List JValue),
       setMem s2 (.jstr rid) = true →
       getRequestId fields2 = .ok (.jstr rid) →
       validatePayload sk2 s2 (.jobj fields2) sig2 now2 = .ok (r2, p3) →
       "Duplicate request ID (replay attack)" ∈ r2.errors) ∧
    (∀ (sk2 : String) (s : List JValue) (pl : JValue) (sg : String) (nw : Int)
       (r2 : ValidationResult) (s2 : List JValue) (v : JValue),
       validatePayload sk2 s pl sg nw = .ok (r2, s2) →
       setMem s v = true → setMem s2 v = true) := by
  have htruthy : pyTruthy (.jstr rid) = true := by
    simp only [pyTruthy, bne]
    rw [beq_eq_false_iff_ne.mpr hne]
    rfl
  obtain ⟨tErrs, rErrs, ht, hr, herr, _⟩ :=
    validatePayload_ok_inv secretKey processed fields sig nowUs r p2 hcall
  rw [replayCheck, hrid] at hr
  simp only [htruthy, if_true, hmem] at hr
  simp only [Bool.false_eq_true, if_false] at hr
  injection hr with hr1
  have hP : p2 = processed ++ [.jstr rid] :=
    ((congrArg Prod.snd hr1) : processed ++ [.jstr rid] = p2).symm
  have hsetP : setMem (processed ++ [.jstr rid]) (.jstr rid) = true := by
    simp [setMem, List.any_append, pyHashableEq]
  refine ⟨hP, by rw [hP]; exact hsetP, ?_, ?_⟩
  · intro sk2 s2 fields2 sig2 now2 r2 p3 hs2 hrid2 hcall2
    obtain ⟨tErrs2, rErrs2, ht2, hr2, herr2, _⟩ :=
      validatePayload_ok_inv sk2 s2 fields2 sig2 now2 r2 p3 hcall2
    rw [replayCheck, hrid2] at hr2
    simp only [htruthy, if_true, hs2, if_true] at hr2
    injection hr2 with hr3
    have hE2 : rErrs2 = ["Duplicate request ID (replay attack)"] :=
      ((congrArg Prod.fst hr3) :
        (["Duplicate request ID (replay attack)"] : List String) = rErrs2).symm
    rw [herr2, hE2]
    simp [List.mem_append]
  · intro sk2 s pl sg nw r2 s2 v hc hv
    exact validatePayload_set_monotone sk2 s pl sg nw r2 s2 v hc hv

/-- C3 witness: the envelope carrying request id "r1" with a bad
signature: the first (invalid) call still consumes "r1", and the second
call reports the replay error. -/
theorem c3_request_id_consumed_even_on_failure_witness :
    ([.jstr "r1"] : List JValue) = [] ++ [.jstr "r1"] ∧
    "Duplicate request ID (replay attack)" ∈
      (["Missing required field: event", "Missing required field: timestamp",
        "Missing required field: source", "Missing required field: data",
        "Duplicate request ID (replay attack)", "Invalid signature"] :
        List String) := by
  have h := c3_request_id_consumed_even_on_failure "k" []
    [("meta", .jobj [("request_id", .jstr "r1")])] "bad" 0 "r1" rfl (by decide)
    rfl
    ⟨false, ["Missing required field: event", "Missing required field: timestamp",
             "Missing required field: source", "Missing required field: data",
             "Invalid signature"]⟩ [.jstr "r1"] (by rfl)
  refine ⟨h.1, ?_⟩
  exact h.2.2.1 "k" [.jstr "r1"] [("meta", .jobj [("request_id", .jstr "r1")])]
    "bad" 0
    ⟨false, ["Missing required field: event", "Missing required field: timestamp",
             "Missing required field: source", "Missing required field: data",
             "Duplicate request ID (replay attack)", "Invalid signature"]⟩
    [.jstr "r1"] (by rfl) rfl (by rfl)

/-! The base payload has the five literal envelope keys, so the
following facts hold by computation, whatever the field values are. -/

lemma dinsert_basePayload_signature (b : WebhookPayloadBuilder) (eventType : String)
    (optimized : Dict) (priority tsStr uuidSuffix : String) (reqMs : Nat)
    (reqUuid : String) (v : JValue) :
    dinsert (basePayloadOf b eventType optimized priority tsStr uuidSuffix reqMs reqUuid)
      "signature" v =
    basePayloadOf b eventType optimized priority tsStr uuidSuffix reqMs reqUuid ++
      [("signature", v)] := rfl

lemma dlookup_basePayload_signature (b : WebhookPayloadBuilder) (eventType : String)
    (optimized : Dict) (priority tsStr uuidSuffix : String) (reqMs : Nat)
    (reqUuid : String) (v : JValue) :
    dlookup (basePayloadOf b eventType optimized priority tsStr uuidSuffix reqMs reqUuid ++
      [("signature", v)]) "signature" = some v := rfl

lemma dlookup_basePayload_timestamp (b : WebhookPayloadBuilder) (eventType : String)
    (optimized : Dict) (priority tsStr uuidSuffix : String) (reqMs : Nat)
    (reqUuid : String) (v : JValue) :
    dlookup (basePayloadOf b eventType optimized priority tsStr uuidSuffix reqMs reqUuid ++
      [("signature", v)]) "timestamp" = some (.jstr tsStr) := rfl

lemma structuralErrors_basePayload (b : WebhookPayloadBuilder) (eventType : String)
    (optimized : Dict) (priority tsStr uuidSuffix : String) (reqMs : Nat)
    (reqUuid : String) (v : JValue) :
    structuralErrors (basePayloadOf b eventType optimized priority tsStr uuidSuffix
      reqMs reqUuid ++ [("signature", v)]) = [] := rfl

lemma getRequestId_basePayload (b : WebhookPayloadBuilder) (eventType : String)
    (optimized : Dict) (priority tsStr uuidSuffix : String) (reqMs : Nat)
    (reqUuid : String) (v : JValue) :
    getRequestId (basePayloadOf b eventType optimized priority tsStr uuidSuffix
      reqMs reqUuid ++ [("signature", v)]) =
    .ok (.jstr (generateRequestId reqMs reqUuid)) := rfl

lemma dremove_basePayload_signature (b : WebhookPayloadBuilder) (eventType : String)
    (optimized : Dict) (priority tsStr uuidSuffix : String) (reqMs : Nat)
    (reqUuid : String) (v : JValue) :
    dremove (basePayloadOf b eventType optimized priority tsStr uuidSuffix reqMs reqUuid ++
      [("signature", v)]) "signature" =
    basePayloadOf b eventType optimized priority tsStr uuidSuffix reqMs reqUuid := rfl

lemma dremove_basePayload_self (b : WebhookPayloadBuilder) (eventType : String)
    (optimized : Dict) (priority tsStr uuidSuffix : String) (reqMs : Nat)
    (reqUuid : String) :
    dremove (basePayloadOf b eventType optimized priority tsStr uuidSuffix reqMs reqUuid)
      "signature" =
    basePayloadOf b eventType optimized priority tsStr uuidSuffix reqMs reqUuid := rfl

/-- C2: an envelope produced by `create_payload`, presented to a
validator holding the same secret and an empty replay set together
with its own `signature` field, at a validation instant at most 300 s
after the (parsable) creation timestamp, validates with `valid = true`
and no errors; the request id is recorded as the only side effect. -/
theorem c2_create_then_validate_roundtrip
    (b : WebhookPayloadBuilder) (eventType : String) (data : Dict)
    (profile priority tsStr uuidSuffix reqUuid : String) (reqMs : Nat)
    (env : Dict) (sig : String) (tsUs nowUs : Int)
    (hcreate : createPayload b eventType data profile priority tsStr uuidSuffix
      reqMs reqUuid = .ok env)
    (hsig : dlookup env "signature" = some (.jstr sig))
    (hts : fromIsoUs (pyReplace tsStr "Z" "+00:00") = some tsUs)
    (hfresh : nowUs - tsUs ≤ 300000000) :
    validatePayload b.secret_key [] (.jobj env) sig nowUs =
      .ok ({ valid := true, errors := [] },
           [.jstr (generateRequestId reqMs reqUuid)]) := by
  rw [createPayload] at hcreate
  split at hcreate
  · exact Except.noConfusion hcreate
  · rename_i optimized hopt
    injection hcreate with henv
    rw [dinsert_basePayload_signature] at henv
    subst henv
    rw [dlookup_basePayload_signature] at hsig
    have hsig2 : builderGenerateSignature b.secret_key
        (basePayloadOf b eventType optimized priority tsStr uuidSuffix reqMs reqUuid) =
        sig := by
      have h1 := Option.some.inj hsig
      injection h1
    subst hsig2
    have hT : timestampCheck (basePayloadOf b eventType optimized priority tsStr
        uuidSuffix reqMs reqUuid ++ [("signature", .jstr (builderGenerateSignature
        b.secret_key (basePayloadOf b eventType optimized priority tsStr uuidSuffix
        reqMs reqUuid)))]) nowUs = .ok [] := by
      simp only [timestampCheck, dlookup_basePayload_timestamp, hts]
      rw [if_neg (by omega)]
    have htruthy : pyTruthy (.jstr (generateRequestId reqMs reqUuid)) = true := by
      simp only [pyTruthy, bne]
      rw [beq_eq_false_iff_ne.mpr (generateRequestId_ne_empty reqMs reqUuid)]
      rfl
    have hR : replayCheck (basePayloadOf b eventType optimized priority tsStr
        uuidSuffix reqMs reqUuid ++ [("signature", .jstr (builderGenerateSignature
        b.secret_key (basePayloadOf b eventType optimized priority tsStr uuidSuffix
        reqMs reqUuid)))]) [] =
        .ok ([], [.jstr (generateRequestId reqMs reqUuid)]) := by
      rw [replayCheck, getRequestId_basePayload]
      simp only [htruthy, if_true]
      rfl
    have hB : builderGenerateSignature b.secret_key
        (basePayloadOf b eventType optimized priority tsStr uuidSuffix reqMs reqUuid) =
        validatorGenerateSignature b.secret_key
          (basePayloadOf b eventType optimized priority tsStr uuidSuffix reqMs reqUuid) := by
      rw [builderGenerateSignature, dremove_basePayload_self]
      rfl
    have hV : verifySignature b.secret_key (basePayloadOf b eventType optimized
        priority tsStr uuidSuffix reqMs reqUuid ++ [("signature",
        .jstr (builderGenerateSignature b.secret_key (basePayloadOf b eventType
        optimized priority tsStr uuidSuffix reqMs reqUuid)))])
        (builderGenerateSignature b.secret_key (basePayloadOf b eventType optimized
        priority tsStr uuidSuffix reqMs reqUuid)) = true := by
      rw [verifySignature, dremove_basePayload_signature, hB]
      exact beq_self_eq_true _
    rw [validatePayload, hT]
    rw [hR]
    simp only [hV, if_true, structuralErrors_basePayload]
    rfl

/-- C2 witness: the round trip at a concrete envelope (secret s3cr3t,
detailed profile, timestamp 2024-06-15T10:00:00.000001Z, validated 100
seconds later). -/
theorem c2_create_then_validate_roundtrip_witness :
    validatePayload "s3cr3t" []
      (.jobj (basePayloadOf ⟨"s3cr3t", "frame-analyzer", "1.0.0"⟩
          "incident_detected" [("a", .jint 1)] "medium"
          "2024-06-15T10:00:00.000001Z" "abcd1234" 1718445600123 "deadbeef" ++
        [("signature",
          .jstr "sha256=cNpOhK8ISY5vHhLku8iTlZhX7HiJLUtToA6tJU7Yigk=")]))
      "sha256=cNpOhK8ISY5vHhLku8iTlZhX7HiJLUtToA6tJU7Yigk=" 1718445700000000 =
      .ok ({ valid := true, errors := [] },
           [.jstr (generateRequestId 1718445600123 "deadbeef")]) :=
  c2_create_then_validate_roundtrip ⟨"s3cr3t", "frame-analyzer", "1.0.0"⟩
    "incident_detected" [("a", .jint 1)] "detailed" "medium"
    "2024-06-15T10:00:00.000001Z" "abcd1234" "deadbeef" 1718445600123
    (basePayloadOf ⟨"s3cr3t", "frame-analyzer", "1.0.0"⟩ "incident_detected"
        [("a", .jint 1)] "medium" "2024-06-15T10:00:00.000001Z" "abcd1234"
        1718445600123 "deadbeef" ++
      [("signature", .jstr "sha256=cNpOhK8ISY5vHhLku8iTlZhX7HiJLUtToA6tJU7Yigk=")])
    "sha256=cNpOhK8ISY5vHhLku8iTlZhX7HiJLUtToA6tJU7Yigk="
    1718445600000001 1718445700000000 (by rfl) (by rfl) (by rfl) (by decide)

/-- The detection object of the spec example: confidence 0.94,
bounding box x 120.5, y 45.2, width 180.7, height 155.9, plus an
`attributes` mapping. -/
def specDetectionObject : JValue :=
  .jobj [("type", .jstr "person"),
         ("confidence", .jfloat (mkRat 94 100)),
         ("bounding_box", .jobj
            [("x", .jfloat (mkRat 1205 10)), ("y", .jfloat (mkRat 452 10)),
             ("width", .jfloat (mkRat 1807 10)), ("height", .jfloat (mkRat 1559 10))]),
         ("attributes", .jobj [("age_estimate", .jstr "adult"),
                               ("clothing_color", .jstr "blue")])]

/-- A detection object with confidence 0.5. -/
def lowConfidenceObject : JValue :=
  .jobj [("type", .jstr "car"), ("confidence", .jfloat (mkRat 1 2))]

/-- C6: under the standard profile the deny-list fields debug_info,
raw_frame_data and processing_metadata are dropped from the top level;
a detection object whose confidence (defaulting to 0) is below 0.7 is
dropped entirely; a kept object carries its type, its confidence
rounded to two decimals under `conf`, and its bounding box — given
either as a mapping with fields x, y, width, height or as a plain
sequence — truncated toward zero into the 4-int sequence
`[x, y, width, height]`; on the spec example object the output has
conf 0.94 and bbox [120, 45, 180, 155], and the 0.5-confidence object
disappears. -/
theorem c6_standard_profile_reduction :
    (∀ (data d' : Dict), optimizeDataForProfile data "standard" = .ok d' →
       dcontains d' "debug_info" = false ∧
       dcontains d' "raw_frame_data" = false ∧
       dcontains d' "processing_metadata" = false) ∧
    (∀ (ofs : Dict) (q : ℚ),
       (dlookup ofs "confidence").getD (.jint 0) = .jfloat q →
       Rat.blt q (mkRat 7 10) = true →
       compressObject (.jobj ofs) = .ok none) ∧
    (∀ (ofs : Dict) (ty : JValue) (q x y w h : ℚ),
       dlookup ofs "confidence" = some (.jfloat q) →
       Rat.blt q (mkRat 7 10) = false →
       dlookup ofs "type" = some ty →
       dlookup ofs "bounding_box" = some (.jobj
         [("x", .jfloat x), ("y", .jfloat y),
          ("width", .jfloat w), ("height", .jfloat h)]) →
       compressObject (.jobj ofs) = .ok (some (.jobj
         [("type", ty), ("conf", .jfloat (pyRound2 q)),
          ("bbox", .jarr
            [.jint (Int.tdiv x.num (x.den : Int)),
             .jint (Int.tdiv y.num (y.den : Int)),
             .jint (Int.tdiv w.num (w.den : Int)),
             .jint (Int.tdiv h.num (h.den : Int))])]))) ∧
    (∀ (ofs : Dict) (ty : JValue) (q x y w h : ℚ),
       dlookup ofs "confidence" = some (.jfloat q) →
       Rat.blt q (mkRat 7 10) = false →
       dlookup ofs "type" = some ty →
       dlookup ofs "bounding_box" = some (.jarr
         [.jfloat x, .jfloat y, .jfloat w, .jfloat h]) →
       compressObject (.jobj ofs) = .ok (some (.jobj
         [("type", ty), ("conf", .jfloat (pyRound2 q)),
          ("bbox", .jarr
            [.jint (Int.tdiv x.num (x.den : Int)),
             .jint (Int.tdiv y.num (y.den : Int)),
             .jint (Int.tdiv w.num (w.den : Int)),
             .jint (Int.tdiv h.num (h.den : Int))])]))) ∧
    compressDetectionDetails (.jobj [("objects",
        .jarr [specDetectionObject, lowConfidenceObject])]) =
      .ok (.jobj [("objects", .jarr [.jobj
        [("type", .jstr "person"), ("conf", .jfloat (mkRat 94 100)),
         ("bbox", .jarr [.jint 120, .jint 45, .jint 180, .jint 155])]])]) := by
  refine ⟨?_, ?_, ?_, ?_, by rfl⟩
  · intro data d' hopt
    rw [optimizeDataForProfile, if_neg (by decide), if_pos rfl] at hopt
    simp only [] at hopt
    have hdi : "debug_info" ∈ excludedFields := by simp [excludedFields]
    have hrf : "raw_frame_data" ∈ excludedFields := by simp [excludedFields]
    have hpm : "processing_metadata" ∈ excludedFields := by simp [excludedFields]
    split at hopt
    · split at hopt
      · exact Except.noConfusion hopt
      · injection hopt with h2
        rw [← h2]
        refine ⟨?_, ?_, ?_⟩
        · rw [dcontains_dinsert_ne _ _ _ _ (by decide)]
          exact dcontains_filter_excluded data _ hdi
        · rw [dcontains_dinsert_ne _ _ _ _ (by decide)]
          exact dcontains_filter_excluded data _ hrf
        · rw [dcontains_dinsert_ne _ _ _ _ (by decide)]
          exact dcontains_filter_excluded data _ hpm
    · injection hopt with h2
      rw [← h2]
      exact ⟨dcontains_filter_excluded data _ hdi,
             dcontains_filter_excluded data _ hrf,
             dcontains_filter_excluded data _ hpm⟩
  · intro ofs q hget hlt
    rw [compressObject, hget]
    simp only [pyGeFloat, hlt]
    rfl
  · intro ofs ty q x y w h hconf hge hty hbb
    rw [compressObject, hconf, hty, hbb]
    simp only [Option.getD_some, pyGeFloat, hge, Bool.not_false]
    rfl
  · intro ofs ty q x y w h hconf hge hty hbb
    rw [compressObject, hconf, hty, hbb]
    simp only [Option.getD_some, pyGeFloat, hge, Bool.not_false]
    rfl

/-- C6 witness: the universal parts at concrete inputs — a data dict
carrying `debug_info`, a 0.5-confidence object, and the two
bounding-box shapes with the spec example values. -/
theorem c6_standard_profile_reduction_witness :
    (dcontains [("frame_id", .jstr "f")] "debug_info" = false ∧
     dcontains [("frame_id", .jstr "f")] "raw_frame_data" = false ∧
     dcontains [("frame_id", .jstr "f")] "processing_metadata" = false) ∧
    compressObject (.jobj [("confidence", .jfloat (mkRat 1 2))]) = .ok none ∧
    compressObject (.jobj [("type", .jstr "person"),
        ("confidence", .jfloat (mkRat 94 100)),
        ("bounding_box", .jobj
          [("x", .jfloat (mkRat 1205 10)), ("y", .jfloat (mkRat 452 10)),
           ("width", .jfloat (mkRat 1807 10)), ("height", .jfloat (mkRat 1559 10))])]) =
      .ok (some (.jobj [("type", .jstr "person"), ("conf", .jfloat (mkRat 94 100)),
        ("bbox", .jarr [.jint 120, .jint 45, .jint 180, .jint 155])])) ∧
    compressObject (.jobj [("type", .jstr "t"),
        ("confidence", .jfloat (mkRat 4 5)),
        ("bounding_box", .jarr
          [.jfloat (mkRat 1205 10), .jfloat (mkRat 452 10),
           .jfloat (mkRat 1807 10), .jfloat (mkRat 1559 10)])]) =
      .ok (some (.jobj [("type", .jstr "t"), ("conf", .jfloat (mkRat 4 5)),
        ("bbox", .jarr [.jint 120, .jint 45, .jint 180, .jint 155])])) :=
  ⟨c6_standard_profile_reduction.1 [("debug_info", .jnull), ("frame_id", .jstr "f")]
      [("frame_id", .jstr "f")] (by rfl),
   c6_standard_profile_reduction.2.1 [("confidence", .jfloat (mkRat 1 2))]
      (mkRat 1 2) rfl (by rfl),
   c6_standard_profile_reduction.2.2.1 [("type", .jstr "person"),
        ("confidence", .jfloat (mkRat 94 100)),
        ("bounding_box", .jobj
          [("x", .jfloat (mkRat 1205 10)), ("y", .jfloat (mkRat 452 10)),
           ("width", .jfloat (mkRat 1807 10)), ("height", .jfloat (mkRat 1559 10))])]
      (.jstr "person") (mkRat 94 100) (mkRat 1205 10) (mkRat 452 10)
      (mkRat 1807 10) (mkRat 1559 10) rfl (by rfl) rfl rfl,
   c6_standard_profile_reduction.2.2.2.1 [("type", .jstr "t"),
        ("confidence", .jfloat (mkRat 4 5)),
        ("bounding_box", .jarr
          [.jfloat (mkRat 1205 10), .jfloat (mkRat 452 10),
           .jfloat (mkRat 1807 10), .jfloat (mkRat 1559 10)])]
      (.jstr "t") (mkRat 4 5) (mkRat 1205 10) (mkRat 452 10)
      (mkRat 1807 10) (mkRat 1559 10) rfl (by rfl) rfl rfl⟩

end Webhook
